import Mathlib

/-!
Shallow embedding of `btcbot3.py`: the trade-decision state machine, the
trade executors, the crash-recovery log scanner, and one cycle of the main
loop. Prices and balances are modelled as rationals; each fallible external
call (price fetch, balance fetch, order placement) is an explicit
`Option`/`Bool` input, with `none`/`false` standing for the Python exception
or API failure. Python truthiness on floats (`if new_price:`) is modelled
explicitly: `0.0` is falsy.
-/

namespace BtcBot

/-- Trade actions, the two non-`None` values of the Python `last_action`
variable (`"buy"` / `"sell"`). -/
inductive Action
  | buy
  | sell
deriving DecidableEq

/-- The pair of module-level globals `(last_trade_price, last_action)`.
`none` models Python `None`. -/
structure TradeState where
  lastTradePrice : Option ℚ
  lastAction : Option Action
deriving DecidableEq

/-- Observable side effects of a cycle, in program order: warning / info /
error log lines, a Telegram notification attempt, and the two order calls
(`client.order_market_buy` / `client.order_market_sell`) with the quantity
passed to the exchange. -/
inductive Effect
  | warn
  | info
  | err
  | notify
  | orderBuy (qty : ℚ)
  | orderSell (qty : ℚ)
deriving DecidableEq

/-- Outcomes of the external calls an executor makes: the balance fetch and
ticker fetch (`none` = the call raised), whether the market order call
succeeds, and the price the exchange's order response reports (the Python
code binds the response to `order` and never reads it). -/
structure ExecEnv where
  balances : Option (ℚ × ℚ)
  ticker : Option ℚ
  orderOk : Bool
  orderFill : ℚ
deriving DecidableEq

/-- Replace the order-response price of an environment, leaving every other
field alone; used to state that the executors never depend on it. -/
def setOrderFill (e : ExecEnv) (f : ℚ) : ExecEnv :=
  ⟨e.balances, e.ticker, e.orderOk, f⟩

/-- Constant `TRADE_AMOUNT_USDT = 20` from the configuration block. -/
def TRADE_AMOUNT_USDT : ℚ := 20

/-- Round a rational to the nearest integer, ties to even — the rounding
rule of Python's built-in `round` (idealised over exact rationals rather
than binary floats). -/
def roundHalfEven (x : ℚ) : ℤ :=
  let f : ℤ := Int.floor x
  if x - f < 1/2 then f
  else if 1/2 < x - f then f + 1
  else if f % 2 = 0 then f else f + 1

/-- Python `round(x, n)` for `n` decimal places, idealised over ℚ. -/
def pyRound (x : ℚ) (n : ℕ) : ℚ := (roundHalfEven (x * 10 ^ n) : ℚ) / 10 ^ n

/-- Model of `execute_buy`: pre-flight USDT balance check, ticker fetch, quantity
sizing `round(TRADE_AMOUNT_USDT / price, prec)`, market buy, success message
and notification. Returns `some price` on success and `none` for the Python
sentinel `False` (insufficient funds or any exception caught by the
handler). A ticker price of `0` raises `ZeroDivisionError` in the quantity
computation, which the handler turns into the failure sentinel. -/
def execute_buy (prec : ℕ) (env : ExecEnv) : Option ℚ × List Effect :=
  match env.balances with
  | none => (none, [.err, .notify])
  | some (usdt, _) =>
    if usdt < TRADE_AMOUNT_USDT then (none, [.warn])
    else
      match env.ticker with
      | none => (none, [.err, .notify])
      | some price =>
        if price = 0 then (none, [.err, .notify])
        else
          let qty := pyRound (TRADE_AMOUNT_USDT / price) prec
          if env.orderOk then (some price, [.orderBuy qty, .info, .notify])
          else (none, [.orderBuy qty, .err, .notify])

/-- Model of `execute_sell`: pre-flight BTC balance check, market sell of the whole
rounded balance, then a ticker fetch AFTER the order, success message and
notification. Returns `some price` (the post-order ticker) on success,
`none` for the Python sentinel `False`. Note the post-order ticker fetch:
if it raises, the function reports failure even though the order went
through. -/
def execute_sell (prec : ℕ) (env : ExecEnv) : Option ℚ × List Effect :=
  match env.balances with
  | none => (none, [.err, .notify])
  | some (_, btc) =>
    if btc ≤ 0 then (none, [.warn])
    else
      let qty := pyRound btc prec
      if env.orderOk then
        match env.ticker with
        | none => (none, [.orderSell qty, .err, .notify])
        | some price => (some price, [.orderSell qty, .info, .notify])
      else (none, [.orderSell qty, .err, .notify])

/-- The caller-side update `new_price = execute_…(); if new_price: …`:
Python truthiness, so the state is overwritten only when the executor
returned a float other than `0.0`. -/
def truthyUpdate (st : TradeState) (r : Option ℚ) (a : Action) : TradeState :=
  match r with
  | some p => if p = 0 then st else ⟨some p, some a⟩
  | none => st

/-- Everything one iteration of the main loop consumes from the outside
world: the loop-level `get_price()` and `get_balances()` results (`none` =
the call raised, caught by the loop's `except`) and the executor's own
external calls. -/
structure CycleEnv where
  ticker : Option ℚ
  balances : Option (ℚ × ℚ)
  exec : ExecEnv
deriving DecidableEq

/-- What one iteration of the main loop did: the state afterwards, which
executor (if any) the decision engine invoked, the effects in order, whether
the body ran to completion (`ok = false` means an exception reached the
loop's boundary `except` handler), and whether the loop sleeps the fixed
60-second delay before the next iteration. -/
structure CycleResult where
  state : TradeState
  requested : Option Action
  effects : List Effect
  ok : Bool
  sleeps : Bool
deriving DecidableEq

/-- One iteration of the `while True:` body. Faithful to the branch
structure of the source: the buy arm runs when `last_action` is `"sell"` or
`None`, guarded by `last_trade_price is None or price <= last_trade_price *
0.99`; the sell arm runs when `last_action == "buy"`, guarded by
`price >= last_trade_price * 1.05` — where a `None` trade price in the sell
arm raises `TypeError` (`None * 1.05`), caught at the loop boundary. The
trailing `.info` is the per-cycle status log line; boundary failures skip it
and emit the error log plus best-effort notification instead. Both exits
sleep the fixed delay. -/
def cycle (prec : ℕ) (st : TradeState) (env : CycleEnv) : CycleResult :=
  match env.ticker with
  | none => ⟨st, none, [.err, .notify], false, true⟩
  | some price =>
    match env.balances with
    | none => ⟨st, none, [.err, .notify], false, true⟩
    | some _ =>
      if st.lastAction = some Action.sell ∨ st.lastAction = none then
        match st.lastTradePrice with
        | none =>
          let r := execute_buy prec env.exec
          ⟨truthyUpdate st r.1 .buy, some .buy, r.2 ++ [.info], true, true⟩
        | some ltp =>
          if price ≤ ltp * (99/100) then
            let r := execute_buy prec env.exec
            ⟨truthyUpdate st r.1 .buy, some .buy, r.2 ++ [.info], true, true⟩
          else ⟨st, none, [.info], true, true⟩
      else
        match st.lastTradePrice with
        | none => ⟨st, none, [.err, .notify], false, true⟩
        | some ltp =>
          if price ≥ ltp * (105/100) then
            let r := execute_sell prec env.exec
            ⟨truthyUpdate st r.1 .sell, some .sell, r.2 ++ [.info], true, true⟩
          else ⟨st, none, [.info], true, true⟩

/-- Whitespace for the purposes of Python's `str.strip` (the form feed and
vertical tab characters Python also strips never occur in the bot's log
lines). -/
def isSpaceChar (c : Char) : Bool :=
  c == ' ' || c == '\t' || c == '\n' || c == '\r'

/-- Python `str.strip()`: drop whitespace from both ends. -/
def trimChars (s : List Char) : List Char :=
  ((s.dropWhile isSpaceChar).reverse.dropWhile isSpaceChar).reverse

/-- Worker for `splitOnChars`, structurally recursive on a fuel argument
that starts at the string's length (each step consumes at least one
character, so the fuel never runs out on the inputs `splitOnChars`
supplies). -/
def splitOnAuxC (sep : List Char) : ℕ → List Char → List Char → List (List Char)
  | _, [], acc => [acc.reverse]
  | 0, rest, acc => [acc.reverse ++ rest]
  | Nat.succ fuel, c :: cs, acc =>
    if sep.isPrefixOf (c :: cs) then
      acc.reverse :: splitOnAuxC sep fuel ((c :: cs).drop sep.length) []
    else
      splitOnAuxC sep fuel cs (c :: acc)

/-- Python `s.split(sep)` for a nonempty separator: leftmost
non-overlapping occurrences, empty pieces kept. -/
def splitOnChars (s sep : List Char) : List (List Char) :=
  splitOnAuxC sep s.length s []

/-- Python's substring test `sub in s`: some suffix of `s` starts with
`sub`. -/
def containsSubC (sub : List Char) : List Char → Bool
  | [] => sub.isPrefixOf []
  | c :: cs => sub.isPrefixOf (c :: cs) || containsSubC sub cs

/-- Numeric value of a digit string, most significant digit first. -/
def digitsVal (s : List Char) : ℕ :=
  s.foldl (fun a c => a * 10 + (c.toNat - 48)) 0

/-- Syntactic half of Python's built-in `float` on plain decimal literals:
sign, integer-part value, fractional-part value and fractional-digit count,
or `none` for the `ValueError` that `float` raises on a malformed string. -/
def parseDecimal (s : List Char) : Option (Bool × ℕ × ℕ × ℕ) :=
  let t := trimChars s
  let signed : Bool × List Char :=
    match t with
    | '-' :: rest => (true, rest)
    | '+' :: rest => (false, rest)
    | _ => (false, t)
  match splitOnChars signed.2 ['.'] with
  | [a] =>
    if a.length > 0 ∧ a.all Char.isDigit then some (signed.1, digitsVal a, 0, 0)
    else none
  | [a, b] =>
    if (a.length > 0 ∨ b.length > 0) ∧ a.all Char.isDigit ∧ b.all Char.isDigit then
      some (signed.1, digitsVal a, digitsVal b, b.length)
    else none
  | _ => none

/-- Rational value of a parsed decimal literal. -/
def decVal (p : Bool × ℕ × ℕ × ℕ) : ℚ :=
  let v : ℚ := (p.2.1 : ℚ) + (p.2.2.1 : ℚ) / 10 ^ p.2.2.2
  if p.1 then -v else v

/-- Python's built-in `float` restricted to plain decimal literals (optional
sign, digits, optional single decimal point, surrounding whitespace), which
is the shape of every price the bot itself logs; `none` models the
`ValueError` that `float` raises on anything else. Scientific notation,
`inf`/`nan` and underscore separators are outside the model. -/
def pyFloatC? (s : List Char) : Option ℚ :=
  (parseDecimal s).map decVal

/-- The characters of the marker `"Last Trade:"`. -/
def lastTradeMarker : List Char := "Last Trade:".data

/-- The characters of the marker `"Action: buy"`. -/
def actionBuyMarker : List Char := "Action: buy".data

/-- The line test of the scanner's loop:
`"Last Trade:" in line and "Action: buy" in line`. -/
def isBuyLine (line : String) : Bool :=
  containsSubC lastTradeMarker line.data && containsSubC actionBuyMarker line.data

/-- The scanner's `line.strip().split("Last Trade:")`. -/
def lineParts (line : String) : List (List Char) :=
  splitOnChars (trimChars line.data) lastTradeMarker

/-- The price substring a matched line yields:
`parts[1].split(",")[0].strip().replace('$', '')`. -/
def priceField (line : String) : List Char :=
  (trimChars ((splitOnChars ((lineParts line).get! 1) [',']).get! 0)).filter
    (fun c => c ≠ '$')

/-- Python `float(price_part)` applied to a matched line's price substring. -/
def buyLinePrice (line : String) : Option ℚ :=
  pyFloatC? (priceField line)

/-- What the scanner extracts from a single matched line, guard included:
`none` when either the `len(parts) > 1` guard fails or the price substring
does not parse. -/
def parseBuyLine (line : String) : Option ℚ :=
  if (lineParts line).length > 1 then buyLinePrice line
  else none

/-- The scanner's `for line in reversed(lines):` loop, over the already
reversed list. A line failing the `isBuyLine` test, or matching but failing
the `len(parts) > 1` guard, is skipped and the loop continues; but once the
price substring of a matched line reaches `float`, a parse failure is an
exception that aborts the whole function (`return None` via the outer
handler), which is why this clause returns `buyLinePrice line` directly
instead of falling through to the rest of the list. -/
def scanBack : List String → Option ℚ
  | [] => none
  | line :: rest =>
    if isBuyLine line then
      if (lineParts line).length > 1 then buyLinePrice line
      else scanBack rest
    else scanBack rest

/-- Model of `get_last_trade_price_from_log` on a readable log's lines. -/
def recoverFromLines (lines : List String) : Option ℚ :=
  scanBack lines.reverse

/-- Model of `get_last_trade_price_from_log` including the file access: `none` input
models an absent or unreadable log (`open` raised, caught by the handler,
which logs a warning and returns `None`). -/
def recover : Option (List String) → Option ℚ
  | none => none
  | some ls => recoverFromLines ls

/-- The `TradeState` invariant from the data model: `lastAction = None` iff
`lastTradePrice = None`. -/
def stateInvariant (st : TradeState) : Prop :=
  st.lastAction = none ↔ st.lastTradePrice = none

instance (st : TradeState) : Decidable (stateInvariant st) := by
  unfold stateInvariant; infer_instance

/-- Module-init seeding (`last_action = "buy" if last_trade_price else
None`): Python truthiness again, so a recovered price of exactly `0.0`
leaves `last_action = None`. -/
def initState (recovered : Option ℚ) : TradeState :=
  ⟨recovered,
    match recovered with
    | some p => if p = 0 then none else some Action.buy
    | none => none⟩

/-! Claim theorems -/

/-- C1: for every state with `lastAction = Buy` and `lastTradePrice = P`
(`P` a positive price) and every incoming price, the engine requests a Sell
iff `price ≥ 1.05 · P`; when `price < 1.05 · P` no order is placed and the
state is unchanged. -/
theorem c1_sell_iff_pump (prec : ℕ) (P price : ℚ) (env : CycleEnv)
    (hP : 0 < P) (ht : env.ticker = some price) (hb : env.balances.isSome) :
    ((cycle prec ⟨some P, some Action.buy⟩ env).requested = some Action.sell ↔
      P * (105/100) ≤ price) ∧
    (price < P * (105/100) →
      (cycle prec ⟨some P, some Action.buy⟩ env).state = ⟨some P, some Action.buy⟩ ∧
      (cycle prec ⟨some P, some Action.buy⟩ env).requested = none ∧
      ∀ q : ℚ, Effect.orderBuy q ∉ (cycle prec ⟨some P, some Action.buy⟩ env).effects ∧
        Effect.orderSell q ∉ (cycle prec ⟨some P, some Action.buy⟩ env).effects) := by
  obtain ⟨b, hb'⟩ := Option.isSome_iff_exists.mp hb
  by_cases h : P * (105/100) ≤ price
  · refine ⟨?_, fun hlt => absurd h (not_le.mpr hlt)⟩
    simp +decide [cycle, ht, hb', h, ge_iff_le]
  · refine ⟨?_, fun _ => ⟨?_, ?_, fun q => ⟨?_, ?_⟩⟩⟩ <;>
      simp +decide [cycle, ht, hb', h, ge_iff_le]

/-- Closed instance of C1: the spec's scenario `lastTradePrice = 50000`,
incoming price `52500`. -/
theorem c1_sell_iff_pump_witness :
    (0:ℚ) < 50000 ∧
    ((cycle 6 ⟨some 50000, some Action.buy⟩
        ⟨some 52500, some (100, 1), ⟨some (100, 1), some 52510, true, 0⟩⟩).requested =
        some Action.sell ↔ (50000:ℚ) * (105/100) ≤ 52500) :=
  ⟨by decide,
   (c1_sell_iff_pump 6 50000 52500
      ⟨some 52500, some (100, 1), ⟨some (100, 1), some 52510, true, 0⟩⟩
      (by decide) rfl rfl).1⟩

/-- C2: for every state with `lastAction ∈ {Sell, None}` and every incoming
price, the engine requests a Buy iff `lastTradePrice = None` or
`price ≤ 0.99 · lastTradePrice`; otherwise no order is placed and the state
is unchanged. -/
theorem c2_buy_iff_dip (prec : ℕ) (price : ℚ) (ltp : Option ℚ)
    (act : Option Action) (env : CycleEnv)
    (ha : act = some Action.sell ∨ act = none)
    (ht : env.ticker = some price) (hb : env.balances.isSome) :
    ((cycle prec ⟨ltp, act⟩ env).requested = some Action.buy ↔
      ltp = none ∨ ∃ P, ltp = some P ∧ price ≤ P * (99/100)) ∧
    (∀ P, ltp = some P → P * (99/100) < price →
      (cycle prec ⟨ltp, act⟩ env).state = ⟨ltp, act⟩ ∧
      (cycle prec ⟨ltp, act⟩ env).requested = none ∧
      ∀ q : ℚ, Effect.orderBuy q ∉ (cycle prec ⟨ltp, act⟩ env).effects ∧
        Effect.orderSell q ∉ (cycle prec ⟨ltp, act⟩ env).effects) := by
  obtain ⟨b, hb'⟩ := Option.isSome_iff_exists.mp hb
  have hact : (⟨ltp, act⟩ : TradeState).lastAction = some Action.sell ∨
      (⟨ltp, act⟩ : TradeState).lastAction = none := ha
  cases ltp with
  | none =>
    refine ⟨?_, fun P hP => by simp at hP⟩
    simp [cycle, ht, hb', hact]
  | some P =>
    by_cases h : price ≤ P * (99/100)
    · refine ⟨?_, fun Q hQ hlt => ?_⟩
      · simp [cycle, ht, hb', hact, h]
      · cases Option.some_inj.mp hQ
        exact absurd h (not_le.mpr hlt)
    · refine ⟨?_, fun Q hQ _ => ⟨?_, ?_, fun q => ⟨?_, ?_⟩⟩⟩ <;>
        simp +decide [cycle, ht, hb', hact, h]

/-- Closed instance of C2: the spec's scenario of a fresh state
(`lastTradePrice = None`) and incoming price `50000`. -/
theorem c2_buy_iff_dip_witness :
    ((none : Option Action) = some Action.sell ∨ (none : Option Action) = none) ∧
    ((cycle 6 ⟨none, none⟩
        ⟨some 50000, some (100, 0), ⟨some (100, 0), some 50000, true, 0⟩⟩).requested =
        some Action.buy ↔ (none : Option ℚ) = none ∨
        ∃ P, (none : Option ℚ) = some P ∧ (50000:ℚ) ≤ P * (99/100)) :=
  ⟨Or.inr rfl,
   (c2_buy_iff_dip 6 50000 none none
      ⟨some 50000, some (100, 0), ⟨some (100, 0), some 50000, true, 0⟩⟩
      (Or.inr rfl) rfl rfl).1⟩

/-- Helper: one cycle either requests nothing and leaves the state alone, or
requests exactly one executor and feeds its result through the caller's
truthiness check. -/
theorem cycle_requested_state (prec : ℕ) (st : TradeState) (env : CycleEnv) :
    ((cycle prec st env).requested = none ∧ (cycle prec st env).state = st) ∨
    ((cycle prec st env).requested = some Action.buy ∧
      (cycle prec st env).state = truthyUpdate st (execute_buy prec env.exec).1 Action.buy) ∨
    ((cycle prec st env).requested = some Action.sell ∧
      (cycle prec st env).state = truthyUpdate st (execute_sell prec env.exec).1 Action.sell) := by
  cases ht : env.ticker with
  | none => exact Or.inl (by constructor <;> simp [cycle, ht])
  | some price =>
    cases hb : env.balances with
    | none => exact Or.inl (by constructor <;> simp [cycle, ht, hb])
    | some b =>
      by_cases hact : st.lastAction = some Action.sell ∨ st.lastAction = none
      · cases hltp : st.lastTradePrice with
        | none =>
          exact Or.inr (Or.inl (by constructor <;> simp [cycle, ht, hb, hact, hltp]))
        | some P =>
          by_cases hth : price ≤ P * (99/100)
          · exact Or.inr (Or.inl
              (by constructor <;> simp [cycle, ht, hb, hact, hltp, hth]))
          · exact Or.inl (by constructor <;> simp [cycle, ht, hb, hact, hltp, hth])
      · cases hltp : st.lastTradePrice with
        | none => exact Or.inl (by constructor <;> simp [cycle, ht, hb, hact, hltp])
        | some P =>
          by_cases hth : price ≥ P * (105/100)
          · exact Or.inr (Or.inr
              (by constructor <;> simp [cycle, ht, hb, hact, hltp, hth]))
          · exact Or.inl (by constructor <;> simp [cycle, ht, hb, hact, hltp, hth])

/-- C3 counterexample: a cycle in which the decision engine requests a Sell,
the executor really executes (the order call happens, the success
notification goes out) and reports success by returning a price — namely the
post-order ticker price `0` — yet the caller's truthiness check treats that
price as falsy and `TradeState` is NOT mutated. So "mutated if and only if
the executor reports success" fails as stated. -/
theorem c3_counterexample :
    (cycle 6 ⟨some 100, some Action.buy⟩
        ⟨some 105, some (0, 1), ⟨some (0, 1), some 0, true, 0⟩⟩).requested =
      some Action.sell ∧
    (execute_sell 6 ⟨some (0, 1), some 0, true, 0⟩).1 = some 0 ∧
    Effect.orderSell (pyRound 1 6) ∈
      (cycle 6 ⟨some 100, some Action.buy⟩
        ⟨some 105, some (0, 1), ⟨some (0, 1), some 0, true, 0⟩⟩).effects ∧
    Effect.notify ∈
      (cycle 6 ⟨some 100, some Action.buy⟩
        ⟨some 105, some (0, 1), ⟨some (0, 1), some 0, true, 0⟩⟩).effects ∧
    (cycle 6 ⟨some 100, some Action.buy⟩
        ⟨some 105, some (0, 1), ⟨some (0, 1), some 0, true, 0⟩⟩).state =
      ⟨some 100, some Action.buy⟩ := by
  refine ⟨?_, ?_, ?_, ?_, ?_⟩ <;>
    norm_num +decide [cycle, execute_sell, truthyUpdate, TRADE_AMOUNT_USDT]

/-- C3 (amended): when the engine requests an execution, the state is
mutated to the returned price and action iff the executor reports success
with a nonzero price; when the executor returns its failure sentinel — and
also in the corner case of a reported price of exactly `0` — `TradeState`
is exactly the same after the cycle as before it. -/
theorem c3_state_update (prec : ℕ) (st : TradeState) (env : CycleEnv) :
    ((cycle prec st env).requested = some Action.buy →
      (execute_buy prec env.exec).1 = none → (cycle prec st env).state = st) ∧
    ((cycle prec st env).requested = some Action.sell →
      (execute_sell prec env.exec).1 = none → (cycle prec st env).state = st) ∧
    (∀ p : ℚ, p ≠ 0 → (cycle prec st env).requested = some Action.buy →
      (execute_buy prec env.exec).1 = some p →
      (cycle prec st env).state = ⟨some p, some Action.buy⟩) ∧
    (∀ p : ℚ, p ≠ 0 → (cycle prec st env).requested = some Action.sell →
      (execute_sell prec env.exec).1 = some p →
      (cycle prec st env).state = ⟨some p, some Action.sell⟩) ∧
    ((cycle prec st env).requested = some Action.sell →
      (execute_sell prec env.exec).1 = some 0 → (cycle prec st env).state = st) := by
  obtain ⟨hr, hs⟩ | ⟨hr, hs⟩ | ⟨hr, hs⟩ := cycle_requested_state prec st env <;>
    refine ⟨fun h1 h2 => ?_, fun h1 h2 => ?_, fun p hp h1 h2 => ?_,
      fun p hp h1 h2 => ?_, fun h1 h2 => ?_⟩ <;>
    simp_all [truthyUpdate]

/-- Closed instance of C3 (amended): the balance fetch inside `execute_sell`
raises, the executor returns the failure sentinel, and the state is
unchanged. -/
theorem c3_state_update_witness :
    (cycle 6 ⟨some 100, some Action.buy⟩
        ⟨some 105, some (0, 1), ⟨none, some 106, true, 0⟩⟩).state =
      ⟨some 100, some Action.buy⟩ :=
  (c3_state_update 6 ⟨some 100, some Action.buy⟩
      ⟨some 105, some (0, 1), ⟨none, some 106, true, 0⟩⟩).2.1
    (by norm_num +decide [cycle]) rfl

/-- C6: with `quoteFree < tradeAmountQuote` the buy pre-flight check fails:
`execute_buy` returns its failure sentinel and its only effect is the
warning log line — no order call, no notification — and a cycle that
requested that buy leaves `TradeState` unchanged. -/
theorem c6_insufficient_funds (prec : ℕ) (st : TradeState) (env : CycleEnv)
    (usdt btc : ℚ) (hb : env.exec.balances = some (usdt, btc))
    (h : usdt < TRADE_AMOUNT_USDT) :
    execute_buy prec env.exec = (none, [Effect.warn]) ∧
    ((cycle prec st env).requested = some Action.buy →
      (cycle prec st env).state = st) := by
  have hbuy : execute_buy prec env.exec = (none, [Effect.warn]) := by
    simp [execute_buy, hb, h]
  refine ⟨hbuy, fun hreq => ?_⟩
  obtain ⟨hr, hs⟩ | ⟨hr, hs⟩ | ⟨hr, hs⟩ := cycle_requested_state prec st env <;>
    simp_all [truthyUpdate]

/-- Closed instance of C6: the spec's scenario `quoteFree = 5`,
`tradeAmountQuote = 20`, on a fresh state that requests a Buy. -/
theorem c6_insufficient_funds_witness :
    execute_buy 6 (⟨some 50000, some (5, 0), ⟨some (5, 0), some 50000, true, 0⟩⟩ :
        CycleEnv).exec = (none, [Effect.warn]) ∧
    ((cycle 6 ⟨none, none⟩
        ⟨some 50000, some (5, 0), ⟨some (5, 0), some 50000, true, 0⟩⟩).requested =
        some Action.buy →
      (cycle 6 ⟨none, none⟩
        ⟨some 50000, some (5, 0), ⟨some (5, 0), some 50000, true, 0⟩⟩).state =
        ⟨none, none⟩) :=
  c6_insufficient_funds 6 ⟨none, none⟩
    ⟨some 50000, some (5, 0), ⟨some (5, 0), some 50000, true, 0⟩⟩ 5 0 rfl (by decide)

/-- Helper: the truthiness update preserves the `TradeState` invariant —
it either keeps the old state or sets both fields to non-`None` values. -/
theorem truthyUpdate_invariant (st : TradeState) (r : Option ℚ) (a : Action)
    (h : stateInvariant st) : stateInvariant (truthyUpdate st r a) := by
  cases r with
  | none => exact h
  | some p =>
    by_cases hp : p = 0
    · simpa [truthyUpdate, hp] using h
    · simp [truthyUpdate, hp, stateInvariant]

/-- C7 counterexample: a readable log whose most recent buy entry records
the price `$0.0` recovers to `lastTradePrice = some 0`, while the truthiness
in `last_action = "buy" if last_trade_price else None` leaves
`lastAction = None` — so the invariant `lastAction = None ↔ lastTradePrice
= None` is violated at process start. -/
theorem c7_counterexample :
    ¬ stateInvariant (initState (recover (some
      ["t INFO: Current Price: $1.00, Last Trade: $0.0, Action: buy"]))) := by
  have h1 : isBuyLine "t INFO: Current Price: $1.00, Last Trade: $0.0, Action: buy" =
      true := by decide
  have h2 : (lineParts "t INFO: Current Price: $1.00, Last Trade: $0.0, Action: buy").length >
      1 := by decide
  have h3 : parseDecimal (priceField
      "t INFO: Current Price: $1.00, Last Trade: $0.0, Action: buy") =
      some (false, 0, 0, 1) := by decide
  have h0 : decVal (false, 0, 0, 1) = 0 := by norm_num [decVal]
  have hrec : recover (some
      ["t INFO: Current Price: $1.00, Last Trade: $0.0, Action: buy"]) = some 0 := by
    simp [recover, recoverFromLines, scanBack, h1, h2, buyLinePrice, pyFloatC?, h3, h0]
  rw [hrec]
  simp [initState, stateInvariant]

/-- C7 (amended): the invariant `lastAction = None ↔ lastTradePrice = None`
holds at process start when starting fresh and when the recovered price is
nonzero (a recovered price of exactly `0.0` violates it), and it is
preserved by every cycle of the main loop. -/
theorem c7_invariant (p : ℚ) (hp : p ≠ 0) (prec : ℕ) (st : TradeState)
    (env : CycleEnv) :
    stateInvariant (initState none) ∧
    stateInvariant (initState (some p)) ∧
    (stateInvariant st → stateInvariant (cycle prec st env).state) := by
  refine ⟨by simp [initState, stateInvariant], by simp [initState, hp, stateInvariant], ?_⟩
  intro hinv
  obtain ⟨hr, hs⟩ | ⟨hr, hs⟩ | ⟨hr, hs⟩ := cycle_requested_state prec st env <;>
    rw [hs]
  · exact hinv
  · exact truthyUpdate_invariant st _ _ hinv
  · exact truthyUpdate_invariant st _ _ hinv

/-- Closed instance of C7 (amended): fresh start, recovery of `50000`, and
one concrete cycle. -/
theorem c7_invariant_witness :
    (50000 : ℚ) ≠ 0 ∧ stateInvariant (initState none) ∧
    stateInvariant (initState (some 50000)) ∧
    (stateInvariant ⟨none, none⟩ →
      stateInvariant (cycle 6 ⟨none, none⟩
        ⟨some 50000, some (100, 0), ⟨some (100, 0), some 50000, true, 0⟩⟩).state) :=
  ⟨by decide,
   (c7_invariant 50000 (by decide) 6 ⟨none, none⟩
      ⟨some 50000, some (100, 0), ⟨some (100, 0), some 50000, true, 0⟩⟩).1,
   (c7_invariant 50000 (by decide) 6 ⟨none, none⟩
      ⟨some 50000, some (100, 0), ⟨some (100, 0), some 50000, true, 0⟩⟩).2.1,
   (c7_invariant 50000 (by decide) 6 ⟨none, none⟩
      ⟨some 50000, some (100, 0), ⟨some (100, 0), some 50000, true, 0⟩⟩).2.2⟩

/-- C8: every cycle sleeps the standard fixed delay before the next one, and
a failure caught at the cycle boundary (exception in the body's external
calls, `ok = false`) leaves the state unchanged and produces exactly an
error log plus a best-effort notification — it never terminates the
process. -/
theorem c8_failure_contained (prec : ℕ) (st : TradeState) (env : CycleEnv) :
    (cycle prec st env).sleeps = true ∧
    ((cycle prec st env).ok = false →
      (cycle prec st env).state = st ∧
      (cycle prec st env).effects = [Effect.err, Effect.notify]) := by
  cases ht : env.ticker with
  | none => exact ⟨by simp [cycle, ht], fun _ => by constructor <;> simp [cycle, ht]⟩
  | some price =>
    cases hb : env.balances with
    | none => exact ⟨by simp [cycle, ht, hb], fun _ => by constructor <;> simp [cycle, ht, hb]⟩
    | some b =>
      by_cases hact : st.lastAction = some Action.sell ∨ st.lastAction = none
      · cases hltp : st.lastTradePrice with
        | none =>
          refine ⟨by simp [cycle, ht, hb, hact, hltp], fun hok => ?_⟩
          simp [cycle, ht, hb, hact, hltp] at hok
        | some P =>
          by_cases hth : price ≤ P * (99/100) <;>
            refine ⟨by simp [cycle, ht, hb, hact, hltp, hth], fun hok => ?_⟩ <;>
            simp [cycle, ht, hb, hact, hltp, hth] at hok
      · cases hltp : st.lastTradePrice with
        | none =>
          exact ⟨by simp [cycle, ht, hb, hact, hltp],
            fun _ => by constructor <;> simp [cycle, ht, hb, hact, hltp]⟩
        | some P =>
          by_cases hth : price ≥ P * (105/100) <;>
            refine ⟨by simp [cycle, ht, hb, hact, hltp, hth], fun hok => ?_⟩ <;>
            simp [cycle, ht, hb, hact, hltp, hth] at hok

/-- Closed instance of C8: the loop-level price fetch raises; the cycle
reports the failure, keeps the state, and still sleeps the fixed delay. -/
theorem c8_failure_contained_witness :
    (cycle 6 ⟨some 100, some Action.buy⟩ ⟨none, none, ⟨none, none, false, 0⟩⟩).sleeps =
      true ∧
    ((cycle 6 ⟨some 100, some Action.buy⟩ ⟨none, none, ⟨none, none, false, 0⟩⟩).state =
      ⟨some 100, some Action.buy⟩ ∧
    (cycle 6 ⟨some 100, some Action.buy⟩ ⟨none, none, ⟨none, none, false, 0⟩⟩).effects =
      [Effect.err, Effect.notify]) :=
  ⟨(c8_failure_contained 6 ⟨some 100, some Action.buy⟩
      ⟨none, none, ⟨none, none, false, 0⟩⟩).1,
   (c8_failure_contained 6 ⟨some 100, some Action.buy⟩
      ⟨none, none, ⟨none, none, false, 0⟩⟩).2 rfl⟩

/-- C9: at startup `last_action` is `"buy"` iff the recovered price is
truthy — a nonzero recovered price seeds `(some p, Buy)`, a recovered price
of exactly `0.0` seeds `(some 0, None)`, and no recovered price seeds
`(None, None)`. -/
theorem c9_init_truthiness (p : ℚ) (hp : p ≠ 0) :
    initState (some p) = ⟨some p, some Action.buy⟩ ∧
    initState (some 0) = ⟨some 0, none⟩ ∧
    initState none = ⟨none, none⟩ := by
  refine ⟨?_, ?_, rfl⟩ <;> simp [initState, hp]

/-- Closed instance of C9 at the recovered price `50000`. -/
theorem c9_init_truthiness_witness :
    (50000 : ℚ) ≠ 0 ∧ initState (some 50000) = ⟨some 50000, some Action.buy⟩ ∧
    initState (some 0) = ⟨some 0, none⟩ ∧ initState none = ⟨none, none⟩ :=
  ⟨by decide, (c9_init_truthiness 50000 (by decide)).1,
   (c9_init_truthiness 50000 (by decide)).2.1, (c9_init_truthiness 50000 (by decide)).2.2⟩

/-- C10: a successful `execute_buy` returns the ticker price fetched before
the order — the same price that sized the order quantity
`round(TRADE_AMOUNT_USDT / price, prec)` — and a successful `execute_sell`
returns a ticker price fetched after the order call succeeded; neither
result depends on the price in the exchange's order response. -/
theorem c10_reference_price (prec : ℕ) (env : ExecEnv) (p : ℚ) :
    ((execute_buy prec env).1 = some p →
      env.ticker = some p ∧
      Effect.orderBuy (pyRound (TRADE_AMOUNT_USDT / p) prec) ∈ (execute_buy prec env).2) ∧
    ((execute_sell prec env).1 = some p →
      env.ticker = some p ∧ env.orderOk = true) ∧
    (∀ f : ℚ, execute_buy prec (setOrderFill env f) = execute_buy prec env ∧
      execute_sell prec (setOrderFill env f) = execute_sell prec env) := by
  refine ⟨?_, ?_, fun f => ⟨?_, ?_⟩⟩
  · cases hb : env.balances with
    | none => simp [execute_buy, hb]
    | some b =>
      obtain ⟨usdt, btc⟩ := b
      by_cases h : usdt < TRADE_AMOUNT_USDT
      · simp [execute_buy, hb, h]
      · cases ht : env.ticker with
        | none => simp [execute_buy, hb, h, ht]
        | some price =>
          by_cases hz : price = 0
          · simp [execute_buy, hb, h, ht, hz]
          · cases ho : env.orderOk <;> intro hres <;>
              simp [execute_buy, hb, h, ht, hz, ho] at hres ⊢
            cases hres
            simp
  · cases hb : env.balances with
    | none => simp [execute_sell, hb]
    | some b =>
      obtain ⟨usdt, btc⟩ := b
      by_cases h : btc ≤ 0
      · simp [execute_sell, hb, h]
      · cases ho : env.orderOk with
        | false => simp [execute_sell, hb, h, ho]
        | true =>
          cases ht : env.ticker <;> intro hres <;>
            simp [execute_sell, hb, h, ho, ht] at hres ⊢
          cases hres
          simp [ht]
  · simp [execute_buy, setOrderFill]
  · simp [execute_sell, setOrderFill]

/-- Closed instance of C10: a concrete buy at ticker `50000` and a concrete
sell returning the post-order ticker `52500`, each with an arbitrary
order-response price `777` that the results ignore. -/
theorem c10_reference_price_witness :
    ((⟨some (100, 1), some 50000, true, 777⟩ : ExecEnv).ticker = some 50000 ∧
      Effect.orderBuy (pyRound (TRADE_AMOUNT_USDT / 50000) 6) ∈
        (execute_buy 6 ⟨some (100, 1), some 50000, true, 777⟩).2) ∧
    ((⟨some (100, 1), some 52500, true, 777⟩ : ExecEnv).ticker = some 52500 ∧
      (⟨some (100, 1), some 52500, true, 777⟩ : ExecEnv).orderOk = true) ∧
    execute_buy 6 (setOrderFill ⟨some (100, 1), some 50000, true, 777⟩ 9) =
      execute_buy 6 ⟨some (100, 1), some 50000, true, 777⟩ :=
  ⟨(c10_reference_price 6 ⟨some (100, 1), some 50000, true, 777⟩ 50000).1
      (by norm_num [execute_buy, TRADE_AMOUNT_USDT]),
   (c10_reference_price 6 ⟨some (100, 1), some 52500, true, 777⟩ 52500).2.1
      (by norm_num [execute_sell, TRADE_AMOUNT_USDT]),
   ((c10_reference_price 6 ⟨some (100, 1), some 50000, true, 777⟩ 50000).2.2 9).1⟩

/-- Helper: the backward scan skips a line that does not match both
markers. -/
theorem scanBack_cons_notbuy (l : String) (rest : List String)
    (h : isBuyLine l = false) : scanBack (l :: rest) = scanBack rest := by
  simp [scanBack, h]

/-- Helper: the backward scan stops at the first matching line and returns
whatever `float` makes of its price substring. -/
theorem scanBack_cons_buy (l : String) (rest : List String)
    (hb : isBuyLine l = true) (hg : (lineParts l).length > 1) :
    scanBack (l :: rest) = buyLinePrice l := by
  simp [scanBack, hb, hg]

/-- Helper: a block of non-matching lines at the front of the scan is
skipped wholesale. -/
theorem scanBack_append_notbuy (xs ys : List String)
    (h : ∀ l ∈ xs, isBuyLine l = false) :
    scanBack (xs ++ ys) = scanBack ys := by
  induction xs with
  | nil => rfl
  | cons x xs ih =>
    rw [List.cons_append, scanBack_cons_notbuy x _ (h x (List.mem_cons_self x xs))]
    exact ih fun l hl => h l (List.mem_cons_of_mem x hl)

/-- Helper: a log with no matching line at all recovers nothing. -/
theorem scanBack_all_notbuy (ls : List String)
    (h : ∀ l ∈ ls, isBuyLine l = false) : scanBack ls = none := by
  induction ls with
  | nil => rfl
  | cons x xs ih =>
    rw [scanBack_cons_notbuy x _ (h x (List.mem_cons_self x xs))]
    exact ih fun l hl => h l (List.mem_cons_of_mem x hl)

/-- C4: recovery returns the recorded trade price of the most recent line
whose action field is "buy", ignoring all later entries (sells included):
an absent/unreadable log recovers `none`, a log with no matching line
recovers `none`, and when the most recent matching line's recorded price
parses to `p`, recovery returns `some p` no matter what precedes it and no
matter what non-buy entries follow it. -/
theorem c4_recovery_last_buy (lines pre post : List String) (line : String)
    (p : ℚ) (hb : isBuyLine line = true) (hp : parseBuyLine line = some p)
    (hpost : ∀ l ∈ post, isBuyLine l = false)
    (hnone : ∀ l ∈ lines, isBuyLine l = false) :
    recover none = none ∧
    recover (some lines) = none ∧
    recover (some (pre ++ line :: post)) = some p := by
  refine ⟨rfl, ?_, ?_⟩
  · exact scanBack_all_notbuy lines.reverse fun l hl =>
      hnone l (List.mem_reverse.mp hl)
  · have hg : (lineParts line).length > 1 ∧ buyLinePrice line = some p := by
      unfold parseBuyLine at hp
      split at hp
      · exact ⟨by assumption, hp⟩
      · exact absurd hp (by simp)
    show scanBack (pre ++ line :: post).reverse = some p
    rw [List.reverse_append, List.reverse_cons, List.append_assoc]
    rw [scanBack_append_notbuy post.reverse _
      (fun l hl => hpost l (List.mem_reverse.mp hl))]
    rw [List.singleton_append, scanBack_cons_buy line _ hb hg.1]
    exact hg.2

/-- Closed instance of C4: an interleaved buy/sell/buy log followed by a
later sell entry recovers exactly the last buy's price `123.25`, not the
first buy's `111.0` nor any sell's. -/
theorem c4_recovery_last_buy_witness :
    recover (some (["t1 Current Price: $110.00, Last Trade: $111.0, Action: buy",
        "t2 Current Price: $120.00, Last Trade: $105.5, Action: sell"] ++
      "t3 Current Price: $124.00, Last Trade: $123.25, Action: buy" ::
        ["t4 Current Price: $130.00, Last Trade: $123.25, Action: sell"])) =
      some (493/4) :=
  (c4_recovery_last_buy []
      ["t1 Current Price: $110.00, Last Trade: $111.0, Action: buy",
       "t2 Current Price: $120.00, Last Trade: $105.5, Action: sell"]
      ["t4 Current Price: $130.00, Last Trade: $123.25, Action: sell"]
      "t3 Current Price: $124.00, Last Trade: $123.25, Action: buy" (493/4)
      (by decide)
      (by
        have h3 : parseDecimal (priceField
            "t3 Current Price: $124.00, Last Trade: $123.25, Action: buy") =
            some (false, 123, 25, 2) := by decide
        have h0 : decVal (false, 123, 25, 2) = 493/4 := by norm_num [decVal]
        simp [parseBuyLine, buyLinePrice, pyFloatC?, h3, h0, (by decide :
          (lineParts "t3 Current Price: $124.00, Last Trade: $123.25, Action: buy").length > 1)])
      (by decide) (by decide)).2.2

/-- C5 counterexample: the most recent matching line records the unparsable
price `$oops`; the `float` call raises, the outer handler catches it, and
recovery returns `none` — it does NOT continue backward to the earlier
well-formed buy at `123.0`, which scanning that line alone shows would
have been returned. -/
theorem c5_counterexample :
    recover (some ["a Last Trade: $123.0, Action: buy",
      "a Last Trade: $oops, Action: buy"]) = none ∧
    recover (some ["a Last Trade: $123.0, Action: buy"]) = some 123 := by
  constructor
  · have h3 : parseDecimal (priceField "a Last Trade: $oops, Action: buy") = none := by
      decide
    simp [recover, recoverFromLines, scanBack,
      (by decide : isBuyLine "a Last Trade: $oops, Action: buy" = true),
      (by decide : (lineParts "a Last Trade: $oops, Action: buy").length > 1),
      buyLinePrice, pyFloatC?, h3]
  · have h3 : parseDecimal (priceField "a Last Trade: $123.0, Action: buy") =
        some (false, 123, 0, 1) := by decide
    have h0 : decVal (false, 123, 0, 1) = 123 := by norm_num [decVal]
    simp [recover, recoverFromLines, scanBack,
      (by decide : isBuyLine "a Last Trade: $123.0, Action: buy" = true),
      (by decide : (lineParts "a Last Trade: $123.0, Action: buy").length > 1),
      buyLinePrice, pyFloatC?, h3, h0]

/-- C5 (amended): when the most recent line carrying both markers has a
price substring that does not parse, the resulting exception aborts the
whole scan — recovery logs a warning and returns `none` without examining
any earlier line, rather than skipping the malformed line and continuing
backward. The malformed matching line may be followed by any number of
later non-matching entries (such as per-cycle status lines): the backward
scan skips those and still aborts on it. -/
theorem c5_malformed_aborts (pre post : List String) (line : String)
    (hb : isBuyLine line = true) (hg : (lineParts line).length > 1)
    (hm : buyLinePrice line = none)
    (hpost : ∀ l ∈ post, isBuyLine l = false) :
    recover (some (pre ++ line :: post)) = none := by
  show scanBack (pre ++ line :: post).reverse = none
  rw [List.reverse_append, List.reverse_cons, List.append_assoc]
  rw [scanBack_append_notbuy post.reverse _
    (fun l hl => hpost l (List.mem_reverse.mp hl))]
  rw [List.singleton_append, scanBack_cons_buy line _ hb hg]
  exact hm

/-- Closed instance of C5 (amended): the malformed `$oops` buy line,
followed by a later non-matching status line, aborts recovery — the
earlier well-formed `$123.0` buy is never reached. -/
theorem c5_malformed_aborts_witness :
    recover (some (["a Last Trade: $123.0, Action: buy"] ++
      "a Last Trade: $oops, Action: buy" ::
        ["b Current Price: $90.00, Last Trade: $123.0, Action: sell"])) = none :=
  c5_malformed_aborts ["a Last Trade: $123.0, Action: buy"]
    ["b Current Price: $90.00, Last Trade: $123.0, Action: sell"]
    "a Last Trade: $oops, Action: buy" (by decide) (by decide)
    (by
      have h3 : parseDecimal (priceField "a Last Trade: $oops, Action: buy") = none := by
        decide
      simp [buyLinePrice, pyFloatC?, h3])
    (by decide)

end BtcBot
